import Mathlib

/-!
Verification development for the haselREC record-selection pipeline.

The definitions below are a shallow embedding of the Python sources:
  * `haselrec/selection_module.py`  — the per-Case pipeline driver,
  * `haselrec/read_input_data.py`   — the input-file parser,
  * `haselrec/scale_acc.py`         — the accelerogram scaling writer.

The seven pipeline stage functions (`compute_conditioning_value`,
`inizialize_gmm`, `screen_database`, `compute_cs`, `simulate_spectra`,
`find_ground_motion`, `optimize_ground_motion`) are imported by
`selection_module` but their sources are not part of this repository
snapshot; the embedding therefore takes them as abstract function
parameters (`StageFns`) with the exact arities and argument orders used at
the call sites of `selection_module.py`, and the driver records a trace of
every stage invocation together with the argument values passed to it.
Printing, directory creation, plotting and output-file writing (steps that
only perform I/O, declared out of core scope by the specification) are not
modelled; the driver's value is the trace of stage calls and the per-Case
stage outputs.  Dynamic (Python) values are modelled by an arbitrary type
`V`; for concrete counterexample runs `PyVal` instantiates it.
-/

deriving instance DecidableEq for Except

namespace Haselrec

/-- Model of a dynamically typed Python value, rich enough for the concrete
runs used below: a rational number, a string, a list of numbers (such as
the per-site `Vs30` list), or Python `None`. -/
inductive PyVal where
  | num (q : ℚ)
  | str (s : String)
  | vlist (l : List ℚ)
  | none
deriving DecidableEq

/-- A value that is either a plain scalar or a sequence.  In
`selection_module.py` the inputs `maxsf_input`, `radius_dist_input` and
`radius_mag_input` are dispatched on with `hasattr(x, '__len__')`: a numpy
array (parsed from a braces list) has `__len__`, a float does not. -/
inductive ScalarOr (V : Type) where
  | scalar (v : V)
  | arr (l : List V)
deriving DecidableEq

/-- The per-Case selection of `maxsf` / `radius_dist` / `radius_mag`
performed at lines 80-91 of `selection_module.py`: element `jj` for a
sequence, the value itself for a scalar. -/
def ScalarOr.sel {V : Type} : ScalarOr V → ℕ → V → V
  | .scalar v, _, _ => v
  | .arr l, jj, dflt => l.getD jj dflt

/-- Identity of one Case: the loop indices (site `ii`, exceedance level
`jj`, intensity measure `im`) of `selection_module`'s triple loop. -/
structure CaseId where
  ii : ℕ
  jj : ℕ
  im : ℕ
deriving DecidableEq

/-- Output of `compute_conditioning_value`: `[im_star, rjb, mag]`. -/
structure CcvOut (V : Type) where
  im_star : V
  rjb : V
  mag : V
deriving DecidableEq

/-- Output of `inizialize_gmm`:
`[bgmpe, sctx, rctx, dctx, vs30, rrup]`.  Note that the fifth component
rebinds the `vs30` variable of `selection_module`. -/
structure GmmOut (V : Type) where
  bgmpe : V
  sctx : V
  rctx : V
  dctx : V
  vs30 : V
  rrup : V
deriving DecidableEq

/-- Output of `screen_database` (fourteen values, in source order). -/
structure ScreenOut (V : Type) where
  sa_known : V
  ind_per : V
  tgt_per : V
  n_big : V
  allowed_index : V
  event_id : V
  station_code : V
  source : V
  record_sequence_number_nga : V
  event_mw : V
  event_mag : V
  acc_distance : V
  station_vs30 : V
  station_ec8 : V
deriving DecidableEq

/-- Output of `compute_cs`: `[mean_req, cov_req, stdevs]`. -/
structure CsOut (V : Type) where
  mean_req : V
  cov_req : V
  stdevs : V
deriving DecidableEq

/-- Output of `find_ground_motion`:
`[sample_small, sample_big, id_sel, ln_sa1, rec_id, im_scale_fac]`. -/
structure FindOut (V : Type) where
  sample_small : V
  sample_big : V
  id_sel : V
  ln_sa1 : V
  rec_id : V
  im_scale_fac : V
deriving DecidableEq

/-- Output of `optimize_ground_motion`:
`[final_records, final_scale_factors, sample_small]`. -/
structure OptOut (V : Type) where
  final_records : V
  final_scale_factors : V
  sample_small : V
deriving DecidableEq

/-- The seven pipeline stage functions imported by `selection_module.py`.
Their sources are not in this repository snapshot, so the embedding is
parametric in them; each field has exactly the arity and argument order of
the corresponding call site in `selection_module.py`. -/
structure StageFns (V : Type) where
  compute_conditioning_value :
    V → V → V → V → V → V → V → V → V → V → CcvOut V
  inizialize_gmm :
    ℕ → V → V → V → V → V → V → V → V → V → V → V → V → V → V → GmmOut V
  screen_database :
    V → V → V → V → V → V → V → V → V → V → V → V → ScreenOut V
  compute_cs :
    V → V → V → V → V → V → V → V → V → V → V → V → V → CsOut V
  simulate_spectra :
    V → V → V → V → V → V → V → V
  find_ground_motion :
    V → V → V → V → V → V → V → V → V → V → V → FindOut V
  optimize_ground_motion :
    V → V → V → V → V → V → V → V → V → V → V → V → V → V → V → OptOut V

/-- One recorded stage invocation, together with the argument values that
`selection_module` passed to it (argument order as in the source). -/
inductive StageCall (V : Type) where
  | conditioning (rlz im_val site poe num_disagg poe_val num_classical
      path_disagg inv_time path_classical : V)
  | gmm (ii : ℕ) (gmpe_input rjb mag hypo_depth dip rake upper_sd lower_sd
      azimuth fhw vs30type vs30 z2pt5 z1pt0 : V)
  | screen (database_path allowed_database allowed_recs_vs30 radius_dist
      radius_mag rjb mag allowed_ec8_code target_periods n_gm allowed_depth
      vs30 : V)
  | cs (tgt_per bgmpe sctx rctx dctx im_type tstar rrup mag avg_periods
      corr_type im_star gmpe_input : V)
  | simulate (random_seed n_trials mean_req cov_req stdevs n_gm weights : V)
  | find (tgt_per tstar avg_periods im n_gm sa_known ind_per mean_req n_big
      simulated_spectra maxsf : V)
  | optimize (n_loop n_gm sample_small n_big id_sel ln_sa1 maxsf sample_big
      tgt_per mean_req stdevs weights penalty rec_id im_scale_fac : V)
deriving DecidableEq

/-- The name of a pipeline stage (spec stages 1-7). -/
inductive StageName where
  | conditioning
  | gmm
  | screen
  | cs
  | simulate
  | find
  | optimize
deriving DecidableEq

/-- The stage a recorded call belongs to. -/
def StageCall.tag {V : Type} : StageCall V → StageName
  | .conditioning .. => .conditioning
  | .gmm .. => .gmm
  | .screen .. => .screen
  | .cs .. => .cs
  | .simulate .. => .simulate
  | .find .. => .find
  | .optimize .. => .optimize

/-- The `vs30` argument of a recorded `inizialize_gmm` call, if this call
is one. -/
def StageCall.gmmVs30 {V : Type} : StageCall V → Option V
  | .gmm _ _ _ _ _ _ _ _ _ _ _ _ vs30 _ _ => some vs30
  | _ => Option.none

/-- The `vs30` argument of a recorded `screen_database` call, if this call
is one. -/
def StageCall.screenVs30 {V : Type} : StageCall V → Option V
  | .screen _ _ _ _ _ _ _ _ _ _ _ vs30 => some vs30
  | _ => Option.none

/-- The seed argument of a recorded `simulate_spectra` call, if this call
is one. -/
def StageCall.simSeed {V : Type} : StageCall V → Option V
  | .simulate seed _ _ _ _ _ _ => some seed
  | _ => Option.none

/-- The `maxsf` argument of a recorded `find_ground_motion` call. -/
def StageCall.findMaxsf {V : Type} : StageCall V → Option V
  | .find _ _ _ _ _ _ _ _ _ _ maxsf => some maxsf
  | _ => Option.none

/-- The `(radius_dist, radius_mag)` arguments of a recorded
`screen_database` call. -/
def StageCall.screenRadii {V : Type} : StageCall V → Option (V × V)
  | .screen _ _ _ rd rm _ _ _ _ _ _ _ => some (rd, rm)
  | _ => Option.none

/-- The parameters of `selection_module` that the loop body reads (the
full parameter list of `selection_module.py`, minus `output_folder`-driven
pure-I/O steps, which are not modelled).  `dflt` stands for the value a
Python out-of-range indexing would never produce: the loop bounds keep all
list indexing in range. -/
structure Env (V : Type) where
  intensity_measures : List V
  site_code : List V
  rlz_code : List V
  path_results_classical : V
  path_results_disagg : V
  num_disagg : V
  num_classical : V
  probability_of_exceedance_num : List V
  probability_of_exceedance : List V
  investigation_time : V
  target_periods : V
  tstar : List V
  im_type : List V
  im_type_lbl : List V
  avg_periods : V
  corr_type : V
  gmpe_input : V
  rake : V
  vs30 : V
  vs30type : V
  hypo_depth : V
  dip : V
  azimuth : V
  fhw : V
  z2pt5 : V
  z1pt0 : V
  upper_sd : V
  lower_sd : V
  database_path : V
  allowed_database : V
  allowed_recs_vs30 : V
  allowed_ec8_code : V
  maxsf_input : ScalarOr V
  radius_dist_input : ScalarOr V
  radius_mag_input : ScalarOr V
  allowed_depth : V
  n_gm : V
  random_seed : V
  n_trials : V
  weights : V
  n_loop : V
  penalty : V
  dflt : V

/-- The execution record of one Case: its identity, the trace of the seven
stage calls with their argument values, and the final stage output. -/
structure CaseRun (V : Type) where
  cid : CaseId
  calls : List (StageCall V)
  out : OptOut V
deriving DecidableEq

/-- One iteration of the innermost loop body of `selection_module.py`
(lines 105-158): the seven stage calls in source order, with the exact
dataflow of the source — in particular the `vs30` argument of
`inizialize_gmm` is the current value of the `vs30` variable (the function
parameter for the first Case, the fifth return value of the previous
Case's `inizialize_gmm` afterwards), and `screen_database` receives the
`vs30` just returned by `inizialize_gmm`.  Returns the new value of the
`vs30` variable and the Case's record. -/
def run_case {V : Type} (S : StageFns V) (e : Env V) (c : CaseId) (vs30 : V) :
    V × CaseRun V :=
  let site := e.site_code.getD c.ii e.dflt
  let rlz := e.rlz_code.getD c.ii e.dflt
  let poe := e.probability_of_exceedance_num.getD c.jj e.dflt
  let poe_val := e.probability_of_exceedance.getD c.jj e.dflt
  let maxsf := e.maxsf_input.sel c.jj e.dflt
  let radius_dist := e.radius_dist_input.sel c.jj e.dflt
  let radius_mag := e.radius_mag_input.sel c.jj e.dflt
  let imv := e.intensity_measures.getD c.im e.dflt
  let tstar_im := e.tstar.getD c.im e.dflt
  let im_type_im := e.im_type.getD c.im e.dflt
  let cv := S.compute_conditioning_value rlz imv site poe e.num_disagg
    poe_val e.num_classical e.path_results_disagg e.investigation_time
    e.path_results_classical
  let g := S.inizialize_gmm c.ii e.gmpe_input cv.rjb cv.mag e.hypo_depth
    e.dip e.rake e.upper_sd e.lower_sd e.azimuth e.fhw e.vs30type vs30
    e.z2pt5 e.z1pt0
  let sd := S.screen_database e.database_path e.allowed_database
    e.allowed_recs_vs30 radius_dist radius_mag cv.rjb cv.mag
    e.allowed_ec8_code e.target_periods e.n_gm e.allowed_depth g.vs30
  let co := S.compute_cs sd.tgt_per g.bgmpe g.sctx g.rctx g.dctx im_type_im
    tstar_im g.rrup cv.mag e.avg_periods e.corr_type cv.im_star e.gmpe_input
  let sim := S.simulate_spectra e.random_seed e.n_trials co.mean_req
    co.cov_req co.stdevs e.n_gm e.weights
  let f := S.find_ground_motion sd.tgt_per tstar_im e.avg_periods imv
    e.n_gm sd.sa_known sd.ind_per co.mean_req sd.n_big sim maxsf
  let o := S.optimize_ground_motion e.n_loop e.n_gm f.sample_small sd.n_big
    f.id_sel f.ln_sa1 maxsf f.sample_big sd.tgt_per co.mean_req co.stdevs
    e.weights e.penalty f.rec_id f.im_scale_fac
  (g.vs30,
   { cid := c,
     calls :=
       [ .conditioning rlz imv site poe e.num_disagg poe_val e.num_classical
           e.path_results_disagg e.investigation_time e.path_results_classical,
         .gmm c.ii e.gmpe_input cv.rjb cv.mag e.hypo_depth e.dip e.rake
           e.upper_sd e.lower_sd e.azimuth e.fhw e.vs30type vs30 e.z2pt5
           e.z1pt0,
         .screen e.database_path e.allowed_database e.allowed_recs_vs30
           radius_dist radius_mag cv.rjb cv.mag e.allowed_ec8_code
           e.target_periods e.n_gm e.allowed_depth g.vs30,
         .cs sd.tgt_per g.bgmpe g.sctx g.rctx g.dctx im_type_im tstar_im
           g.rrup cv.mag e.avg_periods e.corr_type cv.im_star e.gmpe_input,
         .simulate e.random_seed e.n_trials co.mean_req co.cov_req co.stdevs
           e.n_gm e.weights,
         .find sd.tgt_per tstar_im e.avg_periods imv e.n_gm sd.sa_known
           sd.ind_per co.mean_req sd.n_big sim maxsf,
         .optimize e.n_loop e.n_gm f.sample_small sd.n_big f.id_sel f.ln_sa1
           maxsf f.sample_big sd.tgt_per co.mean_req co.stdevs e.weights
           e.penalty f.rec_id f.im_scale_fac ],
     out := o })

/-- The Case order of `selection_module.py`: sites (`ii`) outermost, then
probability-of-exceedance levels (`jj`), then intensity measures (`im`);
every index ranges over `np.arange(len(...))`. -/
def caseList {V : Type} (e : Env V) : List CaseId :=
  (List.range e.site_code.length).flatMap fun ii =>
    (List.range e.probability_of_exceedance_num.length).flatMap fun jj =>
      (List.range e.intensity_measures.length).map fun im =>
        { ii := ii, jj := jj, im := im }

/-- Runs the Cases of `cs` in order, threading the `vs30` variable through
the loop body exactly as `selection_module.py` does. -/
def run_cases {V : Type} (S : StageFns V) (e : Env V) :
    List CaseId → V → List (CaseRun V)
  | [], _ => []
  | c :: cs, v =>
    let step := run_case S e c v
    step.2 :: run_cases S e cs step.1

/-- The embedding of `selection_module.py` (lines 69-181): executes the
Case list in the source's loop order starting from the `vs30` function
parameter, and yields the execution record of every Case. -/
def selection_module {V : Type} (S : StageFns V) (e : Env V) :
    List (CaseRun V) :=
  run_cases S e (caseList e) e.vs30

/-- The value of the `vs30` variable at the start of each listed Case:
`v` for the first Case, thereafter the value returned by the previous
Case's `inizialize_gmm`. -/
def vs30_states {V : Type} (S : StageFns V) (e : Env V) :
    List CaseId → V → List V
  | [], _ => []
  | c :: cs, v => v :: vs30_states S e cs (run_case S e c v).1

/-!
## Exception propagation (`selection_module`'s loop has no handler)

The loop body of `selection_module.py` contains no `try`/`except`: an
exception raised anywhere inside the processing of one Case propagates out
of `selection_module`, so no later Case of the same invocation is
executed.  The abstraction below keeps only what that claim needs: the
body of one Case as a fallible function of the Case identity and the
incoming `vs30` state, returning the new state and the Case's output. -/

/-- Runs Cases in order with a fallible body, with the source's exception
semantics: the first error aborts the whole run (nothing after it is
executed, and the failing Case contributes no output). -/
def run_cases_exc {V O E : Type}
    (body : CaseId → V → Except E (V × O)) :
    List CaseId → V → Except E (V × List O)
  | [], v => .ok (v, [])
  | c :: cs, v =>
    match body c v with
    | .error err => .error err
    | .ok (v', o) =>
      match run_cases_exc body cs v' with
      | .error err => .error err
      | .ok (vf, os) => .ok (vf, o :: os)

/-!
## Embedding of `read_input_data.py` (the parts the claims are about)
-/

/-- Lines 284-295 of `read_input_data.py`: resolution of the mutually
optional `azimuth` / `hanging_wall_flag` entries.  The inputs are the
(already float/int converted) file entries, `Option.none` when the key is
absent (Python `KeyError`).  The source first tries `azimuth`; only on
`KeyError` does it look at `hanging_wall_flag`, validating it to be `1` or
`-1`; if that key is also absent it terminates with
`sys.exit('Error: The azimuth or the hanging_wall_flag must be defined')`. -/
def parse_azimuth_fhw (az : Option ℚ) (hw : Option ℤ) :
    Except String (Option ℚ × Option ℤ) :=
  match az with
  | some a => .ok (some a, Option.none)
  | Option.none =>
    match hw with
    | some f =>
      if f ≠ 1 ∧ f ≠ -1 then
        .error "Error: The hanging_wall_flag must be =1 or =-1"
      else .ok (Option.none, some f)
    | Option.none =>
      .error "Error: The azimuth or the hanging_wall_flag must be defined"

/-- Lines 212-224 of `read_input_data.py`, translated with the comparison
exactly as the source writes it: after parsing the two lists, the
size-consistency guard is
`if (len(probability_of_exceedance_num) != len(probability_of_exceedance_num))`
— it compares `probability_of_exceedance_num` against itself. -/
def check_poe_sizes (poe_num : List ℤ) (poe : List ℚ) :
    Except String (List ℤ × List ℚ) :=
  if poe_num.length ≠ poe_num.length then
    .error ("Error: probability_of_exceedance_num must be of the same size"
      ++ " of probability_of_exceedance")
  else .ok (poe_num, poe)

/-- A raw file entry for `maxsf` / `radius_dist` / `radius_mag`: either a
text that Python's `float()` accepts (a scalar) or a braces list of
numbers (for which `float()` raises `ValueError`). -/
inductive IniNum where
  | fnum (q : ℚ)
  | flist (l : List ℚ)
deriving DecidableEq

/-- Lines 351-383 of `read_input_data.py`: each of `maxsf`, `radius_dist`
and `radius_mag` is first tried as `float(...)`; on `ValueError` it is
parsed as a list and the parse terminates with an error unless the list
length equals `len(probability_of_exceedance_num)`. -/
def parse_sf_param (n_poe : ℕ) (pname : String) (raw : IniNum) :
    Except String (ScalarOr ℚ) :=
  match raw with
  | .fnum q => .ok (.scalar q)
  | .flist l =>
    if n_poe ≠ l.length then
      .error ("Error: " ++ pname
        ++ " must be of the same size of probability_of_exceedance")
    else .ok (.arr l)

/-- Python's `str.strip(chars)` on the character list of a string:
removes from both ends every character contained in `chars`. -/
def pyStrip (chars : List Char) (l : List Char) : List Char :=
  ((l.dropWhile (chars.contains ·)).reverse.dropWhile
    (chars.contains ·)).reverse

/-- The character set of the source's `strip('(,),SA')`. -/
def saStripSet : List Char := ['(', ',', ')', 'S', 'A']

/-- The numeric value of a digit string. -/
def natOfDigits (l : List Char) : ℕ :=
  l.foldl (fun a c => 10 * a + (c.toNat - 48)) 0

/-- Python's `float()` on the plain unsigned decimal literals that occur
as spectral periods: `digits`, `digits.digits`, `digits.` or `.digits`
(no sign, exponent or whitespace, which never occur inside an `SA(T)`
intensity-measure name). `Option.none` models `ValueError`. -/
def parseFloat (l : List Char) : Option ℚ :=
  let ip := l.takeWhile (· ≠ '.')
  match l.dropWhile (· ≠ '.') with
  | [] =>
    if ip ≠ [] ∧ ip.all (·.isDigit) then some (natOfDigits ip) else Option.none
  | _ :: fp =>
    if (ip.all (·.isDigit) ∧ fp.all (·.isDigit)) ∧ (ip ≠ [] ∨ fp ≠ []) then
      some ((natOfDigits ip : ℚ) + (natOfDigits fp : ℚ) / (10 ^ fp.length))
    else Option.none

/-- The classification of one intensity-measure name together with the
`tstar` value the loop assigns for it (`tstar[i]` starts at `0` and is
only written in the `SA` branch). -/
inductive ImKind where
  | avgsa
  | sa (t : ℚ)
  | pga
deriving DecidableEq

/-- The `tstar[i]` value implied by a classification. -/
def ImKind.tstarOf : ImKind → ℚ
  | .avgsa => 0
  | .sa t => t
  | .pga => 0

/-- Lines 236-254 of `read_input_data.py`: classification of one entry of
`intensity_measures`.  The exact name `AvgSA` is matched first (its branch
reads `input['avg_periods']`, a `KeyError` crash when that key is absent,
modelled by the `avg` argument, and leaves `tstar[i]` at its initial `0`);
then any name whose first two characters are `SA` (Python
`[0:2] == 'SA'`), for which `tstar[i] = float(name.strip('(,),SA'))` — an
unparsable remainder is a `ValueError` crash; then any name whose first
three characters are `PGA` (`tstar[i] = 0.0`); any other name reaches
`sys.exit('Error: this intensity measure type ... is not supported yet')`. -/
def classify_im (avg : Option (List ℚ)) (s : String) : Except String ImKind :=
  if s.data = "AvgSA".data then
    match avg with
    | some _ => .ok .avgsa
    | Option.none => .error "KeyError: avg_periods"
  else if s.data.take 2 = "SA".data then
    match parseFloat (pyStrip saStripSet s.data) with
    | some t => .ok (.sa t)
    | Option.none =>
      .error ("ValueError: could not convert string to float: "
        ++ String.mk (pyStrip saStripSet s.data))
  else if s.data.take 3 = "PGA".data then .ok .pga
  else
    .error ("Error: this intensity measure type " ++ s
      ++ " is not supported yet")

/-!
## Embedding of `scale_acc.py`
-/

/-- The data returned for one record by `create_nga_acc` /
`create_esm_acc`: the two horizontal components' time and acceleration
series and their lengths.  Numeric samples are modelled as rationals (the
claims are about the arithmetic applied to them, not about the fixed-point
text rendering of the output lines). -/
structure AccData where
  time1 : List ℚ
  time2 : List ℚ
  inp_acc1 : List ℚ
  inp_acc2 : List ℚ
  npts1 : ℕ
  npts2 : ℕ
deriving DecidableEq

/-- One output file of `scale_acc`: its path and its rows, each row the
pair of values handed to the line formatter (time, scaled acceleration). -/
structure OutFile where
  path : String
  rows : List (ℚ × ℚ)
deriving DecidableEq

/-- The per-record data acquisition of `scale_acc.py` (lines 42-58): the
record's series from `create_nga_acc` for an `NGA-West2` source, from
`create_esm_acc` for an `ESM` source, and the initialisation values
(empty series, zero lengths) otherwise.  The two creator functions live in
`create_acc.py`, which is not part of this snapshot; they are taken as
parameters with the call-site argument shapes. -/
def scale_acc_rec (create_nga_acc : ℤ → String → AccData)
    (create_esm_acc : String → String → String → ℕ → AccData)
    (nga : List ℤ) (path_nga path_esm : String)
    (source event station : List String) (i : ℕ) : AccData :=
  if source.getD i "" = "NGA-West2" then
    create_nga_acc (nga.getD i 0) path_nga
  else if source.getD i "" = "ESM" then
    create_esm_acc
      (path_esm ++ "/" ++ event.getD i "" ++ "-" ++ station.getD i "")
      (event.getD i "") (station.getD i "") i
  else ⟨[], [], [], [], 0, 0⟩

/-- The embedding of `scale_acc.py`: for every `i` in `np.arange(n_gm)` it
writes the two files
`<output_folder>/<name>/GMR_time_scaled_acc_<i+1>_<comp>.txt`; file rows
are `(time[j], acc[j] * sf[i])` for `j` in `np.arange(npts)`. -/
def scale_acc (create_nga_acc : ℤ → String → AccData)
    (create_esm_acc : String → String → String → ℕ → AccData)
    (n_gm : ℕ) (nga : List ℤ) (path_nga path_esm : String)
    (source event station : List String) (name output_folder : String)
    (sf : List ℚ) : List OutFile :=
  (List.range n_gm).flatMap fun i =>
    let d := scale_acc_rec create_nga_acc create_esm_acc nga path_nga
      path_esm source event station i
    [ { path := output_folder ++ "/" ++ name ++ "/GMR_time_scaled_acc_"
          ++ toString (i + 1) ++ "_1.txt",
        rows := (List.range d.npts1).map fun j =>
          (d.time1.getD j 0, d.inp_acc1.getD j 0 * sf.getD i 0) },
      { path := output_folder ++ "/" ++ name ++ "/GMR_time_scaled_acc_"
          ++ toString (i + 1) ++ "_2.txt",
        rows := (List.range d.npts2).map fun j =>
          (d.time2.getD j 0, d.inp_acc2.getD j 0 * sf.getD i 0) } ]

/-!
## Concrete instantiations for counterexample runs
-/

/-- Modelled from the spec: the body of `inizialize_gmm` (module
`input_GMPE.py`, not part of this snapshot) as far as its fifth return
value is concerned.  Spec §4.2: the GroundMotionModel builds the site
context from the Vs30 of the current site, and `read_input_data` documents
`Vs30` as a "list of vs30 values (one for each target site)"; the function
receives the site index `ii` and returns the site's scalar Vs30 — entry
`ii` when given the per-site list, the value itself when already scalar. -/
def pickVs30 (ii : ℕ) : PyVal → PyVal
  | .vlist l => .num (l.getD ii 0)
  | v => v

/-- A concrete stage instantiation for counterexample runs: every stage
returns fixed values except `inizialize_gmm`, whose `vs30` return value
follows `pickVs30` (modelled from the spec, see there). -/
def stages0 : StageFns PyVal where
  compute_conditioning_value _ _ _ _ _ _ _ _ _ _ :=
    ⟨.num 1, .num 20, .num 6⟩
  inizialize_gmm ii _ _ _ _ _ _ _ _ _ _ _ vs30 _ _ :=
    ⟨.str "bgmpe", .str "sctx", .str "rctx", .str "dctx",
     pickVs30 ii vs30, .num 30⟩
  screen_database _ _ _ _ _ _ _ _ _ _ _ _ :=
    ⟨.none, .none, .none, .none, .none, .none, .none, .none, .none, .none,
     .none, .none, .none, .none⟩
  compute_cs _ _ _ _ _ _ _ _ _ _ _ _ _ := ⟨.none, .none, .none⟩
  simulate_spectra _ _ _ _ _ _ _ := .none
  find_ground_motion _ _ _ _ _ _ _ _ _ _ _ :=
    ⟨.none, .none, .none, .none, .none, .none⟩
  optimize_ground_motion _ _ _ _ _ _ _ _ _ _ _ _ _ _ _ :=
    ⟨.none, .none, .none⟩

/-- A two-site environment (sites `0` and `1`, Vs30 list `[300, 600]`,
one exceedance level, one intensity measure): the failing input for the
cross-Case `vs30` leak. -/
def env0 : Env PyVal where
  intensity_measures := [.str "PGA"]
  site_code := [.num 0, .num 1]
  rlz_code := [.num 0, .num 0]
  path_results_classical := .str "cl"
  path_results_disagg := .str "dis"
  num_disagg := .num 107
  num_classical := .num 108
  probability_of_exceedance_num := [.num 2]
  probability_of_exceedance := [.num 1]
  investigation_time := .num 50
  target_periods := .vlist [1, 2, 3]
  tstar := [.num 0]
  im_type := [.str "PGA"]
  im_type_lbl := [.str "PGA"]
  avg_periods := .none
  corr_type := .str "akkar"
  gmpe_input := .str "AkkarBommer2010"
  rake := .num 0
  vs30 := .vlist [300, 600]
  vs30type := .vlist []
  hypo_depth := .num 10
  dip := .none
  azimuth := .num 50
  fhw := .none
  z2pt5 := .none
  z1pt0 := .none
  upper_sd := .none
  lower_sd := .none
  database_path := .str "db"
  allowed_database := .str "ESM"
  allowed_recs_vs30 := .none
  allowed_ec8_code := .none
  maxsf_input := .scalar (.num 3)
  radius_dist_input := .scalar (.num 50)
  radius_mag_input := .scalar (.num 1)
  allowed_depth := .vlist [0, 30]
  n_gm := .num 30
  random_seed := .num 333
  n_trials := .num 10
  weights := .vlist [6, 3, 1]
  n_loop := .num 10
  penalty := .num 10
  dflt := .none

/-- A second two-site environment (Vs30 list `[500, 700]`), used for the
stage-dataflow counterexample. -/
def env2 : Env PyVal :=
  { env0 with
      site_code := [.num 7, .num 8]
      vs30 := .vlist [500, 700]
      random_seed := .num 17 }

/-- A concrete fallible Case body in which the Case at site index `0`
raises (its hazard data is absent) and every other Case succeeds,
returning its site index. -/
def body0 : CaseId → ℚ → Except String (ℚ × ℕ) := fun c v =>
  if c.ii = 0 then
    .error "InputDataError: disaggregation results not found"
  else .ok (v, c.ii)

/-- A throw-away `CaseRun` used as the default of `List.getD`. -/
def junkRun : CaseRun PyVal :=
  { cid := { ii := 0, jj := 0, im := 0 }, calls := [],
    out := ⟨.none, .none, .none⟩ }

/-- The strict loop order of `selection_module`: site index first, then
exceedance-level index, then intensity-measure index. -/
def caseLt (c d : CaseId) : Prop :=
  c.ii < d.ii ∨ (c.ii = d.ii ∧ (c.jj < d.jj ∨ (c.jj = d.jj ∧ c.im < d.im)))

/-!
## Helper lemmas
-/

theorem run_cases_map_cid {V : Type} (S : StageFns V) (e : Env V) :
    ∀ (cs : List CaseId) (v : V),
      (run_cases S e cs v).map CaseRun.cid = cs
  | [], _ => rfl
  | c :: cs, v =>
    congrArg (List.cons c) (run_cases_map_cid S e cs (run_case S e c v).1)

theorem run_cases_eq_zip {V : Type} (S : StageFns V) (e : Env V) :
    ∀ (cs : List CaseId) (v : V),
      run_cases S e cs v =
        ((cs.zip (vs30_states S e cs v)).map fun p => (run_case S e p.1 p.2).2)
  | [], _ => rfl
  | c :: cs, v =>
    congrArg (List.cons (run_case S e c v).2)
      (run_cases_eq_zip S e cs (run_case S e c v).1)

theorem mem_run_cases {V : Type} (S : StageFns V) (e : Env V) :
    ∀ (cs : List CaseId) (v : V) (r : CaseRun V),
      r ∈ run_cases S e cs v → ∃ c v', r = (run_case S e c v').2
  | [], _, _, h => absurd h (List.not_mem_nil _)
  | c :: cs, v, r, h => by
    rcases List.mem_cons.mp h with h | h
    · exact ⟨c, v, h⟩
    · exact mem_run_cases S e cs _ r h

theorem caseList_length {V : Type} (e : Env V) :
    (caseList e).length =
      e.site_code.length * (e.probability_of_exceedance_num.length *
        e.intensity_measures.length) := by
  simp [caseList, List.length_flatMap, Function.comp_def, List.length_map,
    List.length_range, List.map_const', List.sum_replicate, smul_eq_mul]

theorem caseList_mem {V : Type} (e : Env V) (c : CaseId) :
    c ∈ caseList e ↔
      c.ii < e.site_code.length ∧
      c.jj < e.probability_of_exceedance_num.length ∧
      c.im < e.intensity_measures.length := by
  cases c with
  | mk a b d =>
    simp only [caseList, List.mem_flatMap, List.mem_map, List.mem_range,
      CaseId.mk.injEq]
    constructor
    · rintro ⟨ii, hii, jj, hjj, im, him, rfl, rfl, rfl⟩
      exact ⟨hii, hjj, him⟩
    · rintro ⟨ha, hb, hd⟩
      exact ⟨a, ha, b, hb, d, hd, rfl, rfl, rfl⟩

theorem caseList_nodup {V : Type} (e : Env V) : (caseList e).Nodup := by
  rw [caseList, List.nodup_flatMap]
  refine ⟨fun ii _ => ?_, ?_⟩
  · rw [List.nodup_flatMap]
    refine ⟨fun jj _ => ?_, ?_⟩
    · exact (List.nodup_range _).map (fun x y h => by injection h)
    · refine (List.pairwise_lt_range _).imp ?_
      intro a b hab x hx hy
      simp only [List.mem_map, List.mem_range] at hx hy
      obtain ⟨ix, _, rfl⟩ := hx
      obtain ⟨iy, _, heq⟩ := hy
      injection heq with h1 h2 h3
      exact (Nat.ne_of_lt hab) h2.symm
  · refine (List.pairwise_lt_range _).imp ?_
    intro a b hab x hx hy
    simp only [Function.onFun, List.mem_flatMap, List.mem_map,
      List.mem_range] at hx hy
    obtain ⟨jx, _, ⟨ix, _, rfl⟩⟩ := hx
    obtain ⟨jy, _, ⟨iy, _, heq⟩⟩ := hy
    injection heq with h1 h2 h3
    exact (Nat.ne_of_lt hab) h1.symm

theorem caseList_sorted {V : Type} (e : Env V) :
    (caseList e).Pairwise caseLt := by
  rw [caseList, List.pairwise_flatMap]
  refine ⟨fun ii _ => ?_, ?_⟩
  · rw [List.pairwise_flatMap]
    refine ⟨fun jj _ => ?_, ?_⟩
    · rw [List.pairwise_map]
      exact (List.pairwise_lt_range _).imp
        (fun h => Or.inr ⟨rfl, Or.inr ⟨rfl, h⟩⟩)
    · refine (List.pairwise_lt_range _).imp ?_
      intro a b hab x hx y hy
      simp only [List.mem_map, List.mem_range] at hx hy
      obtain ⟨ix, _, rfl⟩ := hx
      obtain ⟨iy, _, rfl⟩ := hy
      exact Or.inr ⟨rfl, Or.inl hab⟩
  · refine (List.pairwise_lt_range _).imp ?_
    intro a b hab x hx y hy
    simp only [List.mem_flatMap, List.mem_map, List.mem_range] at hx hy
    obtain ⟨jx, _, ⟨ix, _, rfl⟩⟩ := hx
    obtain ⟨jy, _, ⟨iy, _, rfl⟩⟩ := hy
    exact Or.inl hab

theorem run_case_tags {V : Type} (S : StageFns V) (e : Env V) (c : CaseId)
    (v : V) :
    (run_case S e c v).2.calls.map StageCall.tag =
      [.conditioning, .gmm, .screen, .cs, .simulate, .find, .optimize] := rfl

theorem run_case_seed {V : Type} (S : StageFns V) (e : Env V) (c : CaseId)
    (v : V) :
    (run_case S e c v).2.calls.filterMap StageCall.simSeed =
      [e.random_seed] := rfl

theorem run_case_maxsf {V : Type} (S : StageFns V) (e : Env V) (c : CaseId)
    (v : V) :
    (run_case S e c v).2.calls.filterMap StageCall.findMaxsf =
      [e.maxsf_input.sel c.jj e.dflt] := rfl

theorem run_case_radii {V : Type} (S : StageFns V) (e : Env V) (c : CaseId)
    (v : V) :
    (run_case S e c v).2.calls.filterMap StageCall.screenRadii =
      [(e.radius_dist_input.sel c.jj e.dflt,
        e.radius_mag_input.sel c.jj e.dflt)] := rfl

theorem run_exc_head_fail {V O E : Type}
    (body : CaseId → V → Except E (V × O))
    (c : CaseId) (cs : List CaseId) (v : V) (err : E)
    (h : body c v = .error err) :
    run_cases_exc body (c :: cs) v = .error err := by
  simp only [run_cases_exc, h]

theorem run_exc_aborts {V O E : Type} (body : CaseId → V → Except E (V × O))
    (cs : List CaseId) (cs' : List CaseId) (c : CaseId) (v v' : V)
    (os : List O) (err : E)
    (h1 : run_cases_exc body cs v = .ok (v', os))
    (h2 : body c v' = .error err) :
    run_cases_exc body (cs ++ c :: cs') v = .error err := by
  induction cs generalizing v os with
  | nil =>
    simp only [run_cases_exc] at h1
    cases h1
    simp only [List.nil_append]
    exact run_exc_head_fail body c cs' _ err h2
  | cons c0 cs ih =>
    cases hbc : body c0 v with
    | error e0 =>
      rw [run_cases_exc, hbc] at h1
      cases h1
    | ok p =>
      obtain ⟨v0, o0⟩ := p
      simp only [run_cases_exc, hbc] at h1
      cases hrc : run_cases_exc body cs v0 with
      | error e0 =>
        rw [hrc] at h1
        cases h1
      | ok p2 =>
        obtain ⟨vf, os0⟩ := p2
        simp only [hrc, Except.ok.injEq, Prod.mk.injEq] at h1
        obtain ⟨rfl, rfl⟩ := h1
        rw [List.cons_append]
        simp only [run_cases_exc, hbc]
        rw [ih v0 os0 hrc]

theorem dropWhile_stop {p : Char → Bool} (l : List Char) (a : Char)
    (h : p a = false) : List.dropWhile p (a :: l) = a :: l := by
  simp [List.dropWhile_cons, h]

theorem pyStrip_sa_paren (c b : Char) (t l2 : List Char)
    (hcb : c :: t = l2 ++ [b])
    (hc : saStripSet.contains c = false)
    (hb : saStripSet.contains b = false) :
    pyStrip saStripSet ('S' :: 'A' :: '(' :: ((c :: t) ++ [')'])) =
      c :: t := by
  have h1 : List.dropWhile (saStripSet.contains ·)
      ('S' :: 'A' :: '(' :: ((c :: t) ++ [')'])) = (c :: t) ++ [')'] := by
    show List.dropWhile (saStripSet.contains ·) (c :: (t ++ [')'])) =
      (c :: t) ++ [')']
    exact dropWhile_stop _ _ hc
  have h2 : ((c :: t) ++ [')']).reverse = ')' :: (c :: t).reverse := by simp
  have h3 : (c :: t).reverse = b :: l2.reverse := by rw [hcb]; simp
  unfold pyStrip
  rw [h1, h2]
  have h4 : List.dropWhile (saStripSet.contains ·)
      (')' :: (c :: t).reverse) =
      List.dropWhile (saStripSet.contains ·) ((c :: t).reverse) := rfl
  rw [h4, h3, dropWhile_stop _ _ hb, ← h3]
  simp

theorem classify_sa_gen (avg : Option (List ℚ)) (c b : Char)
    (t l2 : List Char) (hcb : c :: t = l2 ++ [b])
    (hc : saStripSet.contains c = false)
    (hb : saStripSet.contains b = false)
    (q : ℚ) (hq : parseFloat (c :: t) = some q) :
    classify_im avg (String.mk ('S' :: 'A' :: '(' :: ((c :: t) ++ [')'])))
      = .ok (.sa q) := by
  have hne : ('S' :: 'A' :: '(' :: ((c :: t) ++ [')'])) ≠ "AvgSA".data := by
    intro h
    injection h with h1 _
    exact absurd h1 (by decide)
  show (if ('S' :: 'A' :: '(' :: ((c :: t) ++ [')'])) = "AvgSA".data then _
    else _) = _
  rw [if_neg hne]
  rw [if_pos (show List.take 2 ('S' :: 'A' :: '(' :: ((c :: t) ++ [')']))
    = "SA".data from rfl)]
  rw [show (String.mk ('S' :: 'A' :: '(' :: ((c :: t) ++ [')']))).data
    = 'S' :: 'A' :: '(' :: ((c :: t) ++ [')']) from rfl]
  rw [pyStrip_sa_paren c b t l2 hcb hc hb, hq]

theorem classify_pga_gen (avg : Option (List ℚ)) (r : List Char) :
    classify_im avg (String.mk ('P' :: 'G' :: 'A' :: r)) = .ok .pga := by
  have hne : ('P' :: 'G' :: 'A' :: r) ≠ "AvgSA".data := by
    intro h
    injection h with h1 _
    exact absurd h1 (by decide)
  have hne2 : ('P' :: 'G' :: 'A' :: r).take 2 ≠ "SA".data := by
    intro h
    injection h with h1 _
    exact absurd h1 (by decide)
  show (if ('P' :: 'G' :: 'A' :: r) = "AvgSA".data then _ else _) = _
  rw [if_neg hne]
  rw [if_neg (show ¬ List.take 2 ('P' :: 'G' :: 'A' :: r) = "SA".data
    from hne2)]
  rw [if_pos (show List.take 3 ('P' :: 'G' :: 'A' :: r) = "PGA".data
    from rfl)]

theorem classify_other_gen (avg : Option (List ℚ)) (s : String)
    (h1 : s.data ≠ "AvgSA".data) (h2 : s.data.take 2 ≠ "SA".data)
    (h3 : s.data.take 3 ≠ "PGA".data) :
    classify_im avg s = .error ("Error: this intensity measure type "
      ++ s ++ " is not supported yet") := by
  unfold classify_im
  rw [if_neg h1, if_neg h2, if_neg h3]

theorem parseFloat_half : parseFloat ['0', '.', '5'] = some (1/2) := by
  have h : parseFloat ['0', '.', '5'] =
      some ((natOfDigits ['0'] : ℚ) +
        (natOfDigits ['5'] : ℚ) / (10 ^ (['5'].length))) := rfl
  have h0 : natOfDigits ['0'] = 0 := rfl
  have h5 : natOfDigits ['5'] = 5 := rfl
  rw [h, h0, h5]
  norm_num

/-!
## Claim theorems
-/

/-- C1: the claim says no value computed inside one Case's iteration — in
particular the vs30 value returned by `inizialize_gmm` — is visible to any
later Case.  The code violates this: at the concrete two-site input `env0`
(Vs30 list `[300, 600]`, `inizialize_gmm` spec-modelled to return the
current site's Vs30), the second Case (site 1) receives as the `vs30`
argument of its `inizialize_gmm` the scalar `300` computed by the first
Case, and its `screen_database` is called with `vs30 = 300`; had the same
Case run first, `inizialize_gmm` would have received the per-site list
`[300, 600]` and `screen_database` the correct site value `600`. -/
theorem C1_vs30_cross_case_leak :
    ((selection_module stages0 env0).map fun r =>
        r.calls.filterMap StageCall.gmmVs30) =
      [[.vlist [300, 600]], [.num 300]]
    ∧ ((selection_module stages0 env0).map fun r =>
        r.calls.filterMap StageCall.screenVs30) =
      [[.num 300], [.num 300]]
    ∧ ((run_case stages0 env0 ⟨1, 0, 0⟩ env0.vs30).2.calls.filterMap
        StageCall.gmmVs30) = [.vlist [300, 600]]
    ∧ ((run_case stages0 env0 ⟨1, 0, 0⟩ env0.vs30).2.calls.filterMap
        StageCall.screenVs30) = [.num 600]
    ∧ PyVal.num 300 ≠ PyVal.vlist [300, 600]
    ∧ PyVal.num 300 ≠ PyVal.num 600 := by decide

/-- C2 (counterexample): the claim's clause "each stage consuming only
outputs of earlier stages of the same Case" fails: in the two-site run
over `env2` the `inizialize_gmm` call of the second Case consumes the
value `500` computed by the first Case's `inizialize_gmm`, which is not
equal to the value the same Case receives when it is the first one
processed. -/
theorem C2_same_case_dataflow_counterexample :
    ((selection_module stages0 env2).map fun r =>
        r.calls.filterMap StageCall.gmmVs30) =
      [[.vlist [500, 700]], [.num 500]]
    ∧ ((run_case stages0 env2 ⟨1, 0, 0⟩ env2.vs30).2.calls.filterMap
        StageCall.gmmVs30) = [.vlist [500, 700]]
    ∧ PyVal.num 500 ≠ PyVal.vlist [500, 700] := by decide

/-- C2 (amended): for every Case processed by `selection_module` the seven
pipeline stages are each invoked exactly once, in the strict order
`compute_conditioning_value`, `inizialize_gmm`, `screen_database`,
`compute_cs`, `simulate_spectra`, `find_ground_motion`,
`optimize_ground_motion`; each stage consumes only outputs of earlier
stages of the same Case and the incoming value of the `vs30` variable,
which for the first Case is the `vs30` parameter and for every later Case
is the fifth return value of the previous Case's `inizialize_gmm`
(`vs30_states`): the whole run equals the per-Case bodies applied at their
incoming `vs30` states. -/
theorem C2_stage_order_amended {V : Type} (S : StageFns V) (e : Env V) :
    (∀ r ∈ selection_module S e,
      r.calls.map StageCall.tag =
        [.conditioning, .gmm, .screen, .cs, .simulate, .find, .optimize])
    ∧ selection_module S e =
        ((caseList e).zip (vs30_states S e (caseList e) e.vs30)).map
          (fun p => (run_case S e p.1 p.2).2) := by
  constructor
  · intro r hr
    obtain ⟨c, v', rfl⟩ := mem_run_cases S e _ _ r hr
    exact run_case_tags S e c v'
  · exact run_cases_eq_zip S e _ _

/-- C2 (witness): the amended theorem applied to the concrete run over
`env0`: the first Case's trace is the seven stages in order. -/
theorem C2_stage_order_amended_witness :
    ((selection_module stages0 env0).getD 0 junkRun).calls.map
        StageCall.tag =
      [.conditioning, .gmm, .screen, .cs, .simulate, .find, .optimize] :=
  (C2_stage_order_amended stages0 env0).1 _ (by decide)

/-- C3 (counterexample): supplying both `azimuth` and `hanging_wall_flag`
does not raise: the source reads `azimuth` first and only consults
`hanging_wall_flag` on a `KeyError`, so with both present parsing
succeeds, keeps `azimuth = 50` and leaves `fhw = None`. -/
theorem C3_both_supplied_counterexample :
    parse_azimuth_fhw (some 50) (some 1) = .ok (some 50, Option.none) := rfl

/-- C3 (amended): `read_input_data` terminates with an error on the
azimuth / hanging-wall entries exactly when `azimuth` is absent and
`hanging_wall_flag` is either absent as well or has a value other than
`1` or `-1`; in particular supplying both is accepted (azimuth takes
precedence and the hanging-wall flag is ignored), and supplying neither
is an error. -/
theorem C3_error_conditions_amended (az : Option ℚ) (hw : Option ℤ) :
    (∃ msg, parse_azimuth_fhw az hw = .error msg) ↔
      az = Option.none ∧
        (hw = Option.none ∨ ∃ f, hw = some f ∧ f ≠ 1 ∧ f ≠ -1) := by
  cases az with
  | some a => simp [parse_azimuth_fhw]
  | none =>
    cases hw with
    | some f =>
      by_cases h : f ≠ 1 ∧ f ≠ -1
      · simp [parse_azimuth_fhw, h]
      · simp only [parse_azimuth_fhw, if_neg h]
        simp only [not_and_or, not_not] at h
        simp
        intro g
        exact h.resolve_left g
    | none => simp [parse_azimuth_fhw]

/-- C3 (witness): the amended theorem at the neither-supplied input. -/
theorem C3_error_conditions_amended_witness :
    ∃ msg, parse_azimuth_fhw Option.none Option.none = .error msg :=
  (C3_error_conditions_amended Option.none Option.none).mpr
    ⟨rfl, Or.inl rfl⟩

/-- C4 (counterexample): the claim says whether the remaining Cases are
still processed after a failure is the caller's decision, not forced by
the pipeline.  The loop of `selection_module` has no handler, so the first
failing Case aborts the whole invocation: with `body0` (site 0 fails,
site 1 succeeds) the two-Case run yields only the error and no output at
all for the second Case, although the second Case on its own succeeds. -/
theorem C4_forced_skip_counterexample :
    run_cases_exc body0 [⟨0, 0, 0⟩, ⟨1, 0, 0⟩] 0 =
      .error "InputDataError: disaggregation results not found"
    ∧ run_cases_exc body0 [⟨1, 0, 0⟩] 0 = .ok (0, [1]) := by decide

/-- C4 (amended): every error raised during a Case is fatal to the entire
`selection_module` invocation: there is no retry or local recovery, the
failing Case produces no partial output, and no subsequent Case of the
same invocation is processed — the error of the first failing Case is the
result of the whole run (the caller can only continue by invoking the
module again on the remaining Cases). -/
theorem C4_first_error_aborts_run_amended {V O E : Type}
    (body : CaseId → V → Except E (V × O))
    (cs cs' : List CaseId) (c : CaseId) (v v' : V) (os : List O) (err : E)
    (h1 : run_cases_exc body cs v = .ok (v', os))
    (h2 : body c v' = .error err) :
    run_cases_exc body (cs ++ c :: cs') v = .error err
    ∧ run_cases_exc body (c :: cs') v' = .error err :=
  ⟨run_exc_aborts body cs cs' c v v' os err h1 h2,
   run_exc_head_fail body c cs' v' err h2⟩

/-- C4 (witness): the amended theorem at the concrete `body0` run where
the Case list is `[site 1, site 0, site 2]` and site 0 fails. -/
theorem C4_first_error_aborts_run_amended_witness :
    run_cases_exc body0 ([⟨1, 0, 0⟩] ++ ⟨0, 0, 0⟩ :: [⟨2, 0, 0⟩]) 0 =
      .error "InputDataError: disaggregation results not found" :=
  (C4_first_error_aborts_run_amended body0 [⟨1, 0, 0⟩] [⟨2, 0, 0⟩]
    ⟨0, 0, 0⟩ 0 0 [1] _ (by decide) (by decide)).1

/-- C5: the embedded pipeline is a pure function of its inputs — running
`selection_module` twice on equal stage functions and equal inputs yields
equal outputs — and every Case's trace contains exactly one
`simulate_spectra` call, whose seed argument is the `random_seed`
parameter passed through unchanged. -/
theorem C5_seed_and_determinism {V : Type} (S : StageFns V) (e : Env V)
    (r : CaseRun V) (hr : r ∈ selection_module S e) :
    r.calls.filterMap StageCall.simSeed = [e.random_seed]
    ∧ ∀ (S' : StageFns V) (e' : Env V), S' = S → e' = e →
        selection_module S' e' = selection_module S e := by
  constructor
  · obtain ⟨c, v', rfl⟩ := mem_run_cases S e _ _ r hr
    exact run_case_seed S e c v'
  · rintro S' e' rfl rfl
    rfl

/-- C5 (witness): the theorem at the concrete run over `env2`
(`random_seed = 17`). -/
theorem C5_seed_and_determinism_witness :
    ((selection_module stages0 env2).getD 0 junkRun).calls.filterMap
      StageCall.simSeed = [env2.random_seed] :=
  (C5_seed_and_determinism stages0 env2 _ (by decide)).1

/-- C6: `selection_module` executes the pipeline exactly once per
(site, probability-of-exceedance level, intensity-measure) combination:
the Cases actually run are exactly `caseList`, whose length is the product
of the three list lengths, which contains precisely the triples of
in-range indices, without duplicates, in the strict loop order — sites
outermost, then exceedance levels, then intensity measures (`caseLt`). -/
theorem C6_case_enumeration {V : Type} (S : StageFns V) (e : Env V) :
    (selection_module S e).map CaseRun.cid = caseList e
    ∧ (caseList e).length =
        e.site_code.length * (e.probability_of_exceedance_num.length *
          e.intensity_measures.length)
    ∧ (∀ c : CaseId, c ∈ caseList e ↔
        c.ii < e.site_code.length ∧
        c.jj < e.probability_of_exceedance_num.length ∧
        c.im < e.intensity_measures.length)
    ∧ (caseList e).Nodup
    ∧ (caseList e).Pairwise caseLt :=
  ⟨run_cases_map_cid S e _ _, caseList_length e, caseList_mem e,
   caseList_nodup e, caseList_sorted e⟩

/-- C6 (witness): the theorem at the concrete run over `env0`
(2 sites × 1 level × 1 measure). -/
theorem C6_case_enumeration_witness :
    (selection_module stages0 env0).map CaseRun.cid = caseList env0
    ∧ (caseList env0).Nodup :=
  ⟨(C6_case_enumeration stages0 env0).1,
   (C6_case_enumeration stages0 env0).2.2.2.1⟩

/-- C7: for every selected record index `i < n_gm`, `scale_acc` writes
(among its `2 * n_gm` output files) the two files
`GMR_time_scaled_acc_<i+1>_1.txt` and `GMR_time_scaled_acc_<i+1>_2.txt`,
in which row `j` carries the time value unchanged and the acceleration
sample multiplied by the record's scale factor `sf[i]`. -/
theorem C7_scaled_output_files (cn : ℤ → String → AccData)
    (ce : String → String → String → ℕ → AccData)
    (n_gm : ℕ) (nga : List ℤ) (pn pe : String) (src ev st : List String)
    (name out_f : String) (sf : List ℚ) (i : ℕ) (hi : i < n_gm) :
    (scale_acc cn ce n_gm nga pn pe src ev st name out_f sf).length =
        2 * n_gm
    ∧ (∃ F1 ∈ scale_acc cn ce n_gm nga pn pe src ev st name out_f sf,
        F1.path = out_f ++ "/" ++ name ++ "/GMR_time_scaled_acc_"
          ++ toString (i + 1) ++ "_1.txt"
        ∧ F1.rows.length = (scale_acc_rec cn ce nga pn pe src ev st i).npts1
        ∧ ∀ j < (scale_acc_rec cn ce nga pn pe src ev st i).npts1,
            F1.rows[j]? = some
              ((scale_acc_rec cn ce nga pn pe src ev st i).time1.getD j 0,
               (scale_acc_rec cn ce nga pn pe src ev st i).inp_acc1.getD j 0
                 * sf.getD i 0))
    ∧ (∃ F2 ∈ scale_acc cn ce n_gm nga pn pe src ev st name out_f sf,
        F2.path = out_f ++ "/" ++ name ++ "/GMR_time_scaled_acc_"
          ++ toString (i + 1) ++ "_2.txt"
        ∧ F2.rows.length = (scale_acc_rec cn ce nga pn pe src ev st i).npts2
        ∧ ∀ j < (scale_acc_rec cn ce nga pn pe src ev st i).npts2,
            F2.rows[j]? = some
              ((scale_acc_rec cn ce nga pn pe src ev st i).time2.getD j 0,
               (scale_acc_rec cn ce nga pn pe src ev st i).inp_acc2.getD j 0
                 * sf.getD i 0)) := by
  refine ⟨?_, ?_, ?_⟩
  · simp [scale_acc, List.length_flatMap, Function.comp_def,
      List.map_const', List.sum_replicate, smul_eq_mul, Nat.mul_comm]
  · refine ⟨_, List.mem_flatMap.mpr ⟨i, List.mem_range.mpr hi,
      List.mem_cons_self _ _⟩, rfl, by simp, ?_⟩
    intro j hj
    rw [List.getElem?_map, List.getElem?_range hj, Option.map_some']
  · refine ⟨_, List.mem_flatMap.mpr ⟨i, List.mem_range.mpr hi,
      List.mem_cons.mpr (Or.inr (List.mem_cons_self _ _))⟩, rfl, by simp, ?_⟩
    intro j hj
    rw [List.getElem?_map, List.getElem?_range hj, Option.map_some']

/-- C7 (witness): the theorem at a concrete one-record input. -/
theorem C7_scaled_output_files_witness :
    (scale_acc (fun _ _ => ⟨[0, 1], [0, 1], [2, 3], [4, 5], 2, 2⟩)
      (fun _ _ _ _ => ⟨[], [], [], [], 0, 0⟩) 1 [5] "pn" "pe"
      ["NGA-West2"] ["ev"] ["st"] "nm" "out" [2]).length = 2 :=
  (C7_scaled_output_files (fun _ _ => ⟨[0, 1], [0, 1], [2, 3], [4, 5], 2, 2⟩)
    (fun _ _ _ _ => ⟨[], [], [], [], 0, 0⟩) 1 [5] "pn" "pe"
    ["NGA-West2"] ["ev"] ["st"] "nm" "out" [2] 0 (by decide)).1

/-- C8: for each of `maxsf_input`, `radius_dist_input` and
`radius_mag_input`: inside each Case the value handed to the stages is
`ScalarOr.sel` at the Case's exceedance-level index `jj` (as recorded in
the `find_ground_motion` and `screen_database` call traces); `sel` yields
the same scalar for every `jj` and element `jj` of a sequence; and
`read_input_data` accepts a scalar unconditionally while it terminates
with an error on a sequence exactly when its length differs from the
number of probability-of-exceedance levels. -/
theorem C8_per_poe_parameters {V : Type} (S : StageFns V) (e : Env V)
    (c : CaseId) (v : V) :
    ((run_case S e c v).2.calls.filterMap StageCall.findMaxsf =
        [e.maxsf_input.sel c.jj e.dflt]
      ∧ (run_case S e c v).2.calls.filterMap StageCall.screenRadii =
        [(e.radius_dist_input.sel c.jj e.dflt,
          e.radius_mag_input.sel c.jj e.dflt)])
    ∧ (∀ (q d : V) (jj : ℕ), (ScalarOr.scalar q).sel jj d = q)
    ∧ (∀ (l : List V) (d : V) (jj : ℕ) (h : jj < l.length),
        (ScalarOr.arr l).sel jj d = l.get ⟨jj, h⟩)
    ∧ (∀ (n : ℕ) (p : String) (l : List ℚ),
        ((∃ msg, parse_sf_param n p (.flist l) = .error msg) ↔
          n ≠ l.length))
    ∧ (∀ (n : ℕ) (p : String) (q : ℚ),
        parse_sf_param n p (.fnum q) = .ok (.scalar q)) := by
  refine ⟨⟨run_case_maxsf S e c v, run_case_radii S e c v⟩,
    fun q d jj => rfl, fun l d jj h => List.getD_eq_get l d h, ?_, ?_⟩
  · intro n p l
    by_cases h : n = l.length <;> simp [parse_sf_param, h]
  · intro n p q
    rfl

/-- C8 (witness): the theorem at a concrete Case with a two-element
`maxsf` sequence and the second exceedance level. -/
theorem C8_per_poe_parameters_witness :
    ((run_case stages0
        { env0 with maxsf_input := ScalarOr.arr [.num 3, .num 4] }
        ⟨0, 1, 0⟩ env0.vs30).2.calls.filterMap StageCall.findMaxsf =
      [(ScalarOr.arr [PyVal.num 3, PyVal.num 4]).sel 1 env0.dflt])
    ∧ (ScalarOr.arr [PyVal.num 3, PyVal.num 4]).sel 1 PyVal.none =
        List.get [PyVal.num 3, PyVal.num 4] ⟨1, by decide⟩ :=
  ⟨(C8_per_poe_parameters stages0
      { env0 with maxsf_input := ScalarOr.arr [.num 3, .num 4] }
      ⟨0, 1, 0⟩ env0.vs30).1.1,
   (C8_per_poe_parameters stages0 env0 ⟨0, 0, 0⟩ env0.vs30).2.2.1
     [PyVal.num 3, PyVal.num 4] PyVal.none 1 (by decide)⟩

/-- C9: the advertised size-mismatch check between
`probability_of_exceedance_num` and `probability_of_exceedance` never
fires: as written, it compares `probability_of_exceedance_num` against
itself, so even for lists of different lengths parsing passes the check
and returns both lists. -/
theorem C9_poe_size_check_vacuous (pn : List ℤ) (p : List ℚ)
    (h : pn.length ≠ p.length) :
    check_poe_sizes pn p = .ok (pn, p) := by
  simp [check_poe_sizes]

/-- C9 (witness): the theorem at a concrete mismatched input (two
exceedance numbers, one exceedance probability). -/
theorem C9_poe_size_check_vacuous_witness :
    check_poe_sizes [2, 5] [1] = .ok ([2, 5], [1]) :=
  C9_poe_size_check_vacuous [2, 5] [1] (by decide)

/-- C10: `read_input_data` accepts exactly three kinds of
intensity-measure names: the exact name `AvgSA` (accepted when
`avg_periods` is supplied, a `KeyError` crash otherwise, with `tstar`
left at `0`); names beginning with `SA`, for which `tstar` is the number
parsed from inside the parentheses; names beginning with `PGA`
(`tstar = 0`); every other name terminates the program with the
unsupported-intensity-measure error. -/
theorem C10_intensity_measure_kinds :
    (∀ l : List ℚ, classify_im (some l) "AvgSA" = .ok .avgsa)
    ∧ classify_im Option.none "AvgSA" = .error "KeyError: avg_periods"
    ∧ ImKind.tstarOf .avgsa = 0
    ∧ (∀ (avg : Option (List ℚ)) (c b : Char) (t l2 : List Char),
        c :: t = l2 ++ [b] → saStripSet.contains c = false →
        saStripSet.contains b = false →
        ∀ q : ℚ, parseFloat (c :: t) = some q →
        classify_im avg
            (String.mk ('S' :: 'A' :: '(' :: ((c :: t) ++ [')'])))
          = .ok (.sa q))
    ∧ (∀ (avg : Option (List ℚ)) (r : List Char),
        classify_im avg (String.mk ('P' :: 'G' :: 'A' :: r)) = .ok .pga)
    ∧ ImKind.tstarOf .pga = 0
    ∧ (∀ (avg : Option (List ℚ)) (s : String),
        s.data ≠ "AvgSA".data → s.data.take 2 ≠ "SA".data →
        s.data.take 3 ≠ "PGA".data →
        classify_im avg s = .error ("Error: this intensity measure type "
          ++ s ++ " is not supported yet")) :=
  ⟨fun _ => rfl, rfl, rfl,
   fun avg c b t l2 hcb hc hb q hq => classify_sa_gen avg c b t l2 hcb hc hb q hq,
   fun avg r => classify_pga_gen avg r, rfl,
   fun avg s h1 h2 h3 => classify_other_gen avg s h1 h2 h3⟩

/-- C10 (witness): the theorem at the four concrete names `AvgSA`,
`SA(0.5)` (with `tstar = 0.5`), `PGA` and the unsupported `PGV`. -/
theorem C10_intensity_measure_kinds_witness :
    classify_im (some [1]) "AvgSA" = .ok .avgsa
    ∧ classify_im Option.none
        (String.mk ('S' :: 'A' :: '(' :: (('0' :: ['.', '5']) ++ [')'])))
        = .ok (.sa (1/2))
    ∧ classify_im Option.none (String.mk ('P' :: 'G' :: 'A' :: []))
        = .ok .pga
    ∧ classify_im Option.none "PGV" =
        .error ("Error: this intensity measure type " ++ "PGV"
          ++ " is not supported yet") :=
  ⟨C10_intensity_measure_kinds.1 [1],
   C10_intensity_measure_kinds.2.2.2.1 Option.none '0' '5' ['.', '5']
     ['0', '.'] rfl (by decide) (by decide) (1/2) parseFloat_half,
   C10_intensity_measure_kinds.2.2.2.2.1 Option.none [],
   C10_intensity_measure_kinds.2.2.2.2.2.2 Option.none "PGV"
     (by decide) (by decide) (by decide)⟩

end Haselrec
